import Mathlib

/-!
Verification development for the Unity Bridge Lite client
(Skills/unity/scripts/unity_client.py).

The Python module is shallowly embedded: JSON/Python values become the
inductive type PyVal, the file system and the socket layer become an
explicit oracle (World), the connection pool becomes explicit state
(PoolState), and each Python function becomes a Lean function over these.
Socket side effects are recorded as an event trace so that properties such
as "no socket operation happens" or "the connection is closed before the
error is returned" can be stated.
-/

/-- PyVal models the Python values that flow through the client: the six
JSON shapes produced by json.load / accepted by json.dumps, plus junser
for an arbitrary non-JSON-serializable Python object (json.dumps raises
TypeError on it). Numbers are modelled as integers; no claim depends on
float payloads. -/
inductive PyVal where
  | jnull
  | jbool (b : Bool)
  | jnum (n : Int)
  | jstr (s : String)
  | jarr (xs : List PyVal)
  | jobj (kvs : List (String × PyVal))
  | junser
deriving Repr

/-- Python truthiness of a PyVal, as used by the `if port:` test in
find_unity_port and the `if port:` test in close_connection. A generic
object without special methods is truthy, so junser maps to true. -/
def PyVal.truthy : PyVal → Bool
  | .jnull => false
  | .jbool b => b
  | .jnum n => n != 0
  | .jstr s => !s.isEmpty
  | .jarr xs => !xs.isEmpty
  | .jobj kvs => !kvs.isEmpty
  | .junser => true

/-- Python dict.get with default None: the value of the last binding of
the key (json.load keeps the last of duplicate keys), or none. -/
def dictGet (kvs : List (String × PyVal)) (k : String) : Option PyVal :=
  (kvs.reverse.find? (fun p => p.1 == k)).map (fun p => p.2)

/-- One candidate status file as discovery sees it: its modification time
and the outcome of open-plus-json.load. content none means the open or
the parse raised (IOError / json.JSONDecodeError), which the source
catches and skips. -/
structure StatusFile where
  mtime : Nat
  content : Option PyVal
deriving Repr

/-- Python exceptions that can escape the embedded functions. -/
inductive PyExn where
  | attributeError
  | typeError
deriving Repr, DecidableEq

/-- Result shape of find_unity_port: the source returns either
(port, None) with a truthy port value, or (None, message). -/
inductive FindResult where
  | found (port : PyVal)
  | failed (msg : String)
deriving Repr

/-- Insertion step of a stable most-recent-first sort: x is placed before
the first element whose mtime does not exceed it, so among equal mtimes
the original order is kept, exactly like Python's stable list.sort. -/
def insertDesc (x : StatusFile) : List StatusFile → List StatusFile
  | [] => [x]
  | y :: ys => if y.mtime ≤ x.mtime then x :: y :: ys else y :: insertDesc x ys

/-- Model of port_files.sort(key=os.path.getmtime, reverse=True): stable
sort, most recently modified first. -/
def sortDesc : List StatusFile → List StatusFile
  | [] => []
  | x :: xs => insertDesc x (sortDesc xs)

/-- Loop body of find_unity_port over the sorted candidate list: skip a
file whose open/parse raised; on a parsed JSON object, return its port
value if truthy, otherwise skip; on parsed non-object JSON the attribute
access data.get raises AttributeError, which the except clause
(json.JSONDecodeError, IOError) does not catch. -/
def scanPorts : List StatusFile → Except PyExn FindResult
  | [] => .ok (.failed "Could not read port from Unity status files")
  | f :: rest =>
    match f.content with
    | none => scanPorts rest
    | some (.jobj kvs) =>
      match dictGet kvs "port" with
      | some p => if p.truthy then .ok (.found p) else scanPorts rest
      | none => scanPorts rest
    | some _ => .error .attributeError

/-- find_unity_port: no candidate files is an immediate failure message;
otherwise sort by modification time, most recent first, and scan. -/
def find_unity_port (files : List StatusFile) : Except PyExn FindResult :=
  if files.isEmpty then
    .ok (.failed "No Unity port files found. Is Unity running with Bridge Lite?")
  else
    scanPorts (sortDesc files)

/-- The port value a single file contributes, if any: its content parsed
to a JSON object whose port entry is truthy. -/
def goodPort (f : StatusFile) : Option PyVal :=
  match f.content with
  | some (.jobj kvs) =>
    match dictGet kvs "port" with
    | some p => if p.truthy then some p else none
    | none => none
  | _ => none

/-- A file that cannot raise AttributeError during the scan: its content
is either unreadable/unparseable or a JSON object. -/
def objOrBad (f : StatusFile) : Bool :=
  match f.content with
  | none => true
  | some (.jobj _) => true
  | some _ => false

/-- A file that carries an integer port, the shape the specification
demands discovery to select. -/
def hasIntPort (f : StatusFile) : Bool :=
  match f.content with
  | some (.jobj kvs) =>
    match dictGet kvs "port" with
    | some (.jnum _) => true
    | _ => false
  | _ => false

example : find_unity_port [] =
    .ok (.failed "No Unity port files found. Is Unity running with Bridge Lite?") := rfl

example : find_unity_port [⟨3, some (.jobj [("port", .jnum 700)])⟩,
    ⟨5, some (.jobj [("port", .jnum 800)])⟩] = .ok (.found (.jnum 800)) := rfl

example : find_unity_port [⟨3, some (.jobj [("port", .jnum 700)])⟩, ⟨5, none⟩] =
    .ok (.found (.jnum 700)) := rfl

example : find_unity_port [⟨3, some (.jarr [])⟩] = .error .attributeError := rfl

example : find_unity_port [⟨3, some (.jobj [("port", .jnum 0)])⟩] =
    .ok (.failed "Could not read port from Unity status files") := rfl

/-- One result of a sock.recv(4096) call inside the read loop: a chunk of
bytes (empty means the peer closed), or socket.timeout raised. -/
inductive RecvEvent where
  | chunk (bs : List Nat)
  | tmo
deriving Repr, DecidableEq

/-- Outcome of the newline-delimited read loop in send_command.
parseInput carries the whole accumulated buffer, which the source then
passes through decode, strip and json.loads. blocked is a model artifact:
the scripted recv results ran out before the loop finished (the real
socket would keep blocking). -/
inductive ReceiveOutcome where
  | parseInput (bs : List Nat)
  | connClosed
  | timedOut
  | blocked
deriving Repr, DecidableEq

/-- Read loop of send_command: response starts empty; each recv result is
checked for emptiness (ConnectionError) before being appended; the loop
ends as soon as the accumulated buffer contains a newline byte, and the
whole accumulated buffer is what gets parsed. -/
def recvLoop : List RecvEvent → List Nat → ReceiveOutcome
  | [], _ => .blocked
  | .tmo :: _, _ => .timedOut
  | .chunk bs :: rest, acc =>
    if bs.isEmpty then .connClosed
    else if (acc ++ bs).contains 10 then .parseInput (acc ++ bs)
    else recvLoop rest (acc ++ bs)

/-- Chunk payload of a recv result; a timeout carries no bytes. -/
def RecvEvent.bytes : RecvEvent → List Nat
  | .chunk bs => bs
  | .tmo => []

/-- Each recv result paired with the buffer accumulated through it,
starting from acc. -/
def cumFrom (acc : List Nat) : List RecvEvent → List (RecvEvent × List Nat)
  | [] => []
  | e :: rest => (e, acc ++ e.bytes) :: cumFrom (acc ++ e.bytes) rest

/-- A recv step at which the loop stops: a timeout, an empty read, or a
buffer that now contains the newline delimiter. -/
def decisive : RecvEvent × List Nat → Bool
  | (.tmo, _) => true
  | (.chunk bs, a) => bs.isEmpty || a.contains 10

/-- Loop outcome determined by a decisive step. -/
def outcomeOf : RecvEvent × List Nat → ReceiveOutcome
  | (.tmo, _) => .timedOut
  | (.chunk bs, a) => if bs.isEmpty then .connClosed else .parseInput a

/-- Declarative description of the read loop: scan the recv results with
their running buffers and let the first decisive step decide the
outcome. -/
def describedFrom (acc : List Nat) (events : List RecvEvent) : ReceiveOutcome :=
  match (cumFrom acc events).find? decisive with
  | none => .blocked
  | some p => outcomeOf p

/-- Receive behavior as described: first decisive recv result wins, and a
successful receive parses the entire buffer accumulated so far. -/
def receiveDescribed (events : List RecvEvent) : ReceiveOutcome :=
  describedFrom [] events

theorem recvLoop_eq_describedFrom (events : List RecvEvent) :
    ∀ acc : List Nat, recvLoop events acc = describedFrom acc events := by
  induction events with
  | nil => intro acc; rfl
  | cons e rest ih =>
    intro acc
    cases e with
    | tmo =>
      show ReceiveOutcome.timedOut = describedFrom acc (.tmo :: rest)
      unfold describedFrom cumFrom
      rw [List.find?_cons_of_pos _ (by rfl)]
      rfl
    | chunk bs =>
      by_cases hbs : bs.isEmpty
      · show recvLoop (.chunk bs :: rest) acc = describedFrom acc (.chunk bs :: rest)
        unfold describedFrom cumFrom
        rw [List.find?_cons_of_pos _
          (by simp only [decisive, RecvEvent.bytes]; rw [hbs]; rfl)]
        simp only [recvLoop, outcomeOf, RecvEvent.bytes]
        rw [if_pos hbs, if_pos hbs]
      · by_cases hnl : (acc ++ bs).contains 10
        · unfold describedFrom cumFrom
          rw [List.find?_cons_of_pos _
            (by simp only [decisive, RecvEvent.bytes]; rw [hnl]; exact Bool.or_true _)]
          simp only [recvLoop, outcomeOf, RecvEvent.bytes]
          rw [if_neg hbs, if_neg hbs, if_pos hnl]
        · have step : recvLoop (.chunk bs :: rest) acc = recvLoop rest (acc ++ bs) := by
            simp only [recvLoop]
            rw [if_neg hbs, if_neg hnl]
          rw [step, ih (acc ++ bs)]
          unfold describedFrom
          rw [show cumFrom acc (RecvEvent.chunk bs :: rest)
              = (RecvEvent.chunk bs, acc ++ bs) :: cumFrom (acc ++ bs) rest from rfl]
          rw [List.find?_cons_of_neg _
            (by simp only [decisive, RecvEvent.bytes, Bool.or_eq_true]
                exact fun h => h.elim hbs hnl)]

example : recvLoop [.chunk [123, 125, 10, 120]] [] = .parseInput [123, 125, 10, 120] := rfl

example : recvLoop [.chunk [123], .chunk [125, 10]] [] = .parseInput [123, 125, 10] := rfl

example : recvLoop [.chunk [123], .chunk []] [] = .connClosed := rfl

example : recvLoop [.chunk [123], .tmo] [] = .timedOut := rfl

/-- Result of the non-blocking recv(1, MSG_PEEK) liveness probe on a
pooled socket: pending data, would-block (BlockingIOError), or a zero
byte read meaning the peer closed. -/
inductive PeekResult where
  | someData
  | noData
  | closed
deriving Repr, DecidableEq

/-- Result of sock.sendall on a socket: success, socket.timeout, or
another socket exception carrying its message. -/
inductive SendResult where
  | sendOk
  | sendTimeout
  | sendExc (msg : String)
deriving Repr, DecidableEq

/-- Scripted behavior of one socket, indexed by its identifier. -/
structure SockBehavior where
  peekResult : PeekResult
  sendResult : SendResult
  recvScript : List RecvEvent

/-- Oracle for everything outside the client: the status directory
contents, whether connecting to a port succeeds, each socket's scripted
behavior, and json.loads on the decoded and stripped receive buffer
(none models json.JSONDecodeError or a UnicodeDecodeError, with
loadsErrMsg the str(e) text of that exception). -/
structure World where
  files : List StatusFile
  connectOk : Int → Bool
  behaviors : Nat → SockBehavior
  loads : List Nat → Option PyVal
  loadsErrMsg : List Nat → String

/-- Connection pool state: the _socket_pool dict keyed by host:port
strings, plus a counter handing out fresh socket identifiers. -/
structure PoolState where
  pool : List (String × Nat)
  nextId : Nat
deriving Repr, DecidableEq

/-- Socket side effects, recorded in order as a trace. -/
inductive Ev where
  | evSetBlocking (sid : Nat) (flag : Bool)
  | evPeek (sid : Nat)
  | evSetTimeout (sid : Nat) (t : Nat)
  | evConnect (port : Int) (sid : Nat)
  | evConnectFail (port : Int)
  | evSend (sid : Nat) (payload : String)
  | evClose (sid : Nat)
deriving Repr, DecidableEq

/-- Python str() of the port value, as interpolated into the pool key
f-string. Renderings of containers and opaque objects are abbreviated;
only numbers and strings ever matter to the claims. -/
def pyStr : PyVal → String
  | .jnull => "None"
  | .jbool true => "True"
  | .jbool false => "False"
  | .jnum n => toString n
  | .jstr s => s
  | .jarr _ => "[...]"
  | .jobj _ => "\x7b...\x7d"
  | .junser => "<object>"

/-- Pool key for a discovered port value, as in f"127.0.0.1:{port}". -/
def keyOf (pv : PyVal) : String := "127.0.0.1:" ++ pyStr pv

/-- Lookup in the pool dict. -/
def poolLookup (pool : List (String × Nat)) (k : String) : Option Nat :=
  (pool.find? (fun p => p.1 == k)).map (fun p => p.2)

/-- Dict assignment _socket_pool[key] = sock. -/
def poolInsert (pool : List (String × Nat)) (k : String) (sid : Nat) :
    List (String × Nat) :=
  (k, sid) :: pool.filter (fun p => !(p.1 == k))

/-- Dict deletion del _socket_pool[key]. -/
def poolErase (pool : List (String × Nat)) (k : String) : List (String × Nat) :=
  pool.filter (fun p => !(p.1 == k))

/-- Failure modes of get_socket as seen by send_command's handlers:
ConnectionRefusedError has its own except clause; any other exception
(for example the TypeError sock.connect raises when the discovered port
value is not an integer) lands in the generic handler. -/
inductive SockErr where
  | refused
  | otherExc (msg : String)
deriving Repr, DecidableEq

/-- Connection creation path of get_socket: a fresh socket, TCP_NODELAY,
settimeout, connect, then insertion into the pool. A refused connect
inserts nothing; a non-integer port makes sock.connect raise TypeError. -/
def connectNew (w : World) (st : PoolState) (pv : PyVal) (t : Nat) :
    Except SockErr Nat × PoolState × List Ev :=
  match pv with
  | .jnum n =>
    if w.connectOk n then
      let sid := st.nextId
      (.ok sid,
       { pool := poolInsert st.pool (keyOf pv) sid, nextId := st.nextId + 1 },
       [.evSetTimeout sid t, .evConnect n sid])
    else
      (.error .refused, st, [.evConnectFail n])
  | _ => (.error (.otherExc "an integer is required"), st, [])

/-- get_socket: reuse the pooled socket for the key after a liveness peek
(pending data or would-block both count as alive, and blocking mode with
the requested timeout is restored); a zero byte peek means the peer
closed, so the socket is closed, its key deleted, and a new connection is
made; with no pooled socket a new connection is made directly. -/
def getSocket (w : World) (st : PoolState) (pv : PyVal) (t : Nat) :
    Except SockErr Nat × PoolState × List Ev :=
  let key := keyOf pv
  match poolLookup st.pool key with
  | some sid =>
    match (w.behaviors sid).peekResult with
    | .someData =>
      (.ok sid, st, [.evSetBlocking sid false, .evPeek sid,
                     .evSetBlocking sid true, .evSetTimeout sid t])
    | .noData =>
      (.ok sid, st, [.evSetBlocking sid false, .evPeek sid,
                     .evSetBlocking sid true, .evSetTimeout sid t])
    | .closed =>
      let st1 : PoolState := { pool := poolErase st.pool key, nextId := st.nextId }
      let evs0 := [Ev.evSetBlocking sid false, Ev.evPeek sid, Ev.evClose sid]
      let r := connectNew w st1 pv t
      (r.1, r.2.1, evs0 ++ r.2.2)
  | none => connectNew w st pv t

/-- close_connection with a port argument: if the port value is truthy,
close and delete the single pooled socket for its key (if any);
a falsy port falls into the else branch that closes every pooled socket
and clears the pool. -/
def close_connection (pv : PyVal) (st : PoolState) : PoolState × List Ev :=
  if pv.truthy then
    match poolLookup st.pool (keyOf pv) with
    | some sid => ({ pool := poolErase st.pool (keyOf pv), nextId := st.nextId },
                   [.evClose sid])
    | none => (st, [])
  else
    ({ pool := [], nextId := st.nextId }, st.pool.map (fun p => .evClose p.2))

/-- Decimal digit character, used to render integers. -/
def digitChar (n : Nat) : Char := "0123456789".data.getD n '0'

/-- Decimal digits of a natural number, most significant first; the fuel
argument only bounds the recursion and any fuel of at least one plus the
number of digits gives the same result. -/
def natDigitsGo (fuel n : Nat) (acc : List Char) : List Char :=
  match fuel with
  | 0 => acc
  | fuel + 1 =>
    if n < 10 then digitChar (n % 10) :: acc
    else natDigitsGo fuel (n / 10) (digitChar (n % 10) :: acc)

/-- Decimal rendering of a natural number. -/
def natRepr (n : Nat) : String := String.mk (natDigitsGo (n + 1) n [])

/-- Python repr of an int, as json.dumps renders numbers. -/
def pyIntRepr (n : Int) : String :=
  if n < 0 then "-" ++ natRepr n.natAbs
  else natRepr n.natAbs

/-- Lowercase hex digit, used in unicode escapes. -/
def hexDigit (n : Nat) : Char := "0123456789abcdef".data.getD n '0'

/-- Four-digit unicode escape sequence as emitted by json.dumps with
ensure_ascii. -/
def uEsc (n : Nat) : String :=
  String.mk ['\\', 'u', hexDigit (n / 4096 % 16), hexDigit (n / 256 % 16),
             hexDigit (n / 16 % 16), hexDigit (n % 16)]

/-- Escaping of one character inside a JSON string literal, following
json.dumps with its default ensure_ascii=True: the two-character escapes
for quote, backslash and common controls, unicode escapes for the other
controls and for everything outside printable ASCII, surrogate pairs
beyond the basic plane. -/
def escChar (c : Char) : String :=
  if c = '"' then "\\\""
  else if c = '\\' then "\\\\"
  else if c = '\n' then "\\n"
  else if c = '\t' then "\\t"
  else if c = '\r' then "\\r"
  else if c = Char.ofNat 8 then "\\b"
  else if c = Char.ofNat 12 then "\\f"
  else if c.toNat < 32 || 126 < c.toNat then
    if c.toNat < 65536 then uEsc c.toNat
    else uEsc (55296 + (c.toNat - 65536) / 1024) ++ uEsc (56320 + (c.toNat - 65536) % 1024)
  else String.singleton c

/-- Concatenation of already-rendered pieces. -/
def concatStrs : List String → String
  | [] => ""
  | s :: rest => s ++ concatStrs rest

/-- JSON string literal for s under json.dumps. -/
def escString (s : String) : String :=
  "\"" ++ concatStrs (s.data.map escChar) ++ "\""

/-- Python str.join over the rendered items, as in the ", ".join the
serializer effectively performs between array items and object members. -/
def joinSep (sep : String) : List String → String
  | [] => ""
  | [s] => s
  | s :: rest => s ++ sep ++ joinSep sep rest

mutual

/-- json.dumps of a Python value with the default separators
(item separator comma-space, key separator colon-space): none models the
TypeError raised on a non-serializable object. -/
def dumpsVal : PyVal → Option String
  | .jnull => some "null"
  | .jbool true => some "true"
  | .jbool false => some "false"
  | .jnum n => some (pyIntRepr n)
  | .jstr s => some (escString s)
  | .junser => none
  | .jarr xs =>
    match dumpsItems xs with
    | some ss => some ("[" ++ joinSep ", " ss ++ "]")
    | none => none
  | .jobj kvs =>
    match dumpsMembers kvs with
    | some ss => some ("\x7b" ++ joinSep ", " ss ++ "\x7d")
    | none => none

/-- Rendered items of a JSON array. -/
def dumpsItems : List PyVal → Option (List String)
  | [] => some []
  | x :: xs =>
    match dumpsVal x, dumpsItems xs with
    | some s, some ss => some (s :: ss)
    | _, _ => none

/-- Rendered members of a JSON object. -/
def dumpsMembers : List (String × PyVal) → Option (List String)
  | [] => some []
  | (k, v) :: kvs =>
    match dumpsVal v, dumpsMembers kvs with
    | some s, some ss => some ((escString k ++ ": " ++ s) :: ss)
    | _, _ => none

end

/-- The request payload string built by send_command:
json.dumps of the object with the type and params entries (params or {}
replaces a missing or empty params dict by {}), followed by the newline
delimiter. -/
def requestObj (command : String) (params : Option (List (String × PyVal))) : PyVal :=
  .jobj [("type", .jstr command), ("params", .jobj (params.getD []))]

def dumpsPayload (command : String) (params : Option (List (String × PyVal))) :
    Option String :=
  match dumpsVal (requestObj command params) with
  | some s => some (s ++ "\n")
  | none => none

example : dumpsPayload "ping" none =
    some "\x7b\"type\": \"ping\", \"params\": \x7b\x7d\x7d\n" := rfl

example : dumpsPayload "set_transform" (some [("name", .jstr "Sun"), ("scale", .jnum 2)]) =
    some "\x7b\"type\": \"set_transform\", \"params\": \x7b\"name\": \"Sun\", \"scale\": 2\x7d\x7d\n" := rfl

example : dumpsPayload "ping" (some [("x", .junser)]) = none := rfl

example : dumpsVal (.jstr "a\nb") = some "\"a\\nb\"" := rfl

example : dumpsVal (.jnum (-42)) = some "-42" := rfl

/-- Error response dict literal used by send_command. -/
def errorResp (msg : String) : PyVal :=
  .jobj [("status", .jstr "error"), ("error", .jstr msg)]

/-- Whether a response value is the error shape send_command builds. -/
def isErrorResp : PyVal → Bool
  | .jobj (("status", .jstr "error") :: _) => true
  | _ => false

/-- Top level outcome of one send_command call: a returned value (the
structured response), an exception escaping to the caller, or the model
artifact stuck for an exhausted recv script. -/
inductive SCResult where
  | returned (r : PyVal)
  | raised (e : PyExn)
  | stuck
deriving Repr

/-- send_command: discover the port (errors from find_unity_port escape,
a failure message is returned as an error response); serialize the
payload (a TypeError from json.dumps escapes, the try block starts only
after it); then inside the try block, get a pooled or fresh socket, send
the frame, run the newline read loop and parse, with
ConnectionRefusedError answered without eviction and socket.timeout or
any other exception answered after close_connection(port). -/
def sendCommand (w : World) (st : PoolState) (command : String)
    (params : Option (List (String × PyVal))) (t : Nat) :
    SCResult × PoolState × List Ev :=
  match find_unity_port w.files with
  | .error e => (.raised e, st, [])
  | .ok (.failed msg) => (.returned (errorResp msg), st, [])
  | .ok (.found pv) =>
    match dumpsPayload command params with
    | none => (.raised .typeError, st, [])
    | some payload =>
      let gs := getSocket w st pv t
      let st1 := gs.2.1
      let evs1 := gs.2.2
      match gs.1 with
      | .error .refused =>
        (.returned (errorResp "Cannot connect to Unity. Is Unity running?"), st1, evs1)
      | .error (.otherExc m) =>
        let c := close_connection pv st1
        (.returned (errorResp m), c.1, evs1 ++ c.2)
      | .ok sid =>
        match (w.behaviors sid).sendResult with
        | .sendTimeout =>
          let c := close_connection pv st1
          (.returned (errorResp "Connection timeout"), c.1, evs1 ++ c.2)
        | .sendExc m =>
          let c := close_connection pv st1
          (.returned (errorResp m), c.1, evs1 ++ c.2)
        | .sendOk =>
          let evs2 := evs1 ++ [Ev.evSend sid payload]
          match recvLoop (w.behaviors sid).recvScript [] with
          | .blocked => (.stuck, st1, evs2)
          | .timedOut =>
            let c := close_connection pv st1
            (.returned (errorResp "Connection timeout"), c.1, evs2 ++ c.2)
          | .connClosed =>
            let c := close_connection pv st1
            (.returned (errorResp "Connection closed by server"), c.1, evs2 ++ c.2)
          | .parseInput bs =>
            match w.loads bs with
            | none =>
              let c := close_connection pv st1
              (.returned (errorResp (w.loadsErrMsg bs)), c.1, evs2 ++ c.2)
            | some r => (.returned r, st1, evs2)

/-- Default-carrying dict lookup over string pairs, modelling
COMMANDS.get(name, name): the value of the last binding of the key, or
the default. -/
def dictGetStrD (kvs : List (String × String)) (k d : String) : String :=
  match (kvs.reverse.find? (fun p => p.1 == k)).map (fun p => p.2) with
  | some v => v
  | none => d

/-- The COMMANDS alias dict, transcribed entry for entry in source
order. -/
def COMMANDS : List (String × String) := [
  ("ping", "ping"),
  ("list", "list_commands"),
  ("list_commands", "list_commands"),
  ("scene", "get_scene_info"),
  ("scene_info", "get_scene_info"),
  ("get_scene_info", "get_scene_info"),
  ("hierarchy", "get_hierarchy"),
  ("get_hierarchy", "get_hierarchy"),
  ("selection", "get_selection"),
  ("get_selection", "get_selection"),
  ("create", "create_gameobject"),
  ("create_gameobject", "create_gameobject"),
  ("menu", "execute_menu"),
  ("execute_menu", "execute_menu"),
  ("play", "set_play_mode"),
  ("set_play_mode", "set_play_mode"),
  ("console", "get_console"),
  ("get_console", "get_console"),
  ("color", "set_material_color"),
  ("set_color", "set_material_color"),
  ("set_material_color", "set_material_color"),
  ("select", "select_gameobject"),
  ("select_gameobject", "select_gameobject"),
  ("rotate", "start_rotation"),
  ("start_rotation", "start_rotation"),
  ("stop_rotation", "stop_rotation"),
  ("orbit", "start_orbit"),
  ("start_orbit", "start_orbit"),
  ("stop_orbit", "stop_orbit"),
  ("install", "install_package"),
  ("install_package", "install_package"),
  ("packages", "get_packages"),
  ("get_packages", "get_packages"),
  ("settings", "open_settings"),
  ("open_settings", "open_settings"),
  ("player", "get_player_settings"),
  ("get_player_settings", "get_player_settings"),
  ("set_player", "set_player_settings"),
  ("set_player_settings", "set_player_settings"),
  ("build_target", "get_build_target"),
  ("get_build_target", "get_build_target"),
  ("set_build_target", "set_build_target"),
  ("switch_platform", "set_build_target"),
  ("multiset", "get_multiset_config"),
  ("get_multiset", "get_multiset_config"),
  ("get_multiset_config", "get_multiset_config"),
  ("set_multiset", "set_multiset_config"),
  ("set_multiset_config", "set_multiset_config"),
  ("create_so", "create_scriptable_object"),
  ("create_scriptable_object", "create_scriptable_object"),
  ("verify_multiset", "verify_multiset_sdk"),
  ("verify_multiset_sdk", "verify_multiset_sdk"),
  ("import_samples", "import_multiset_samples"),
  ("import_multiset_samples", "import_multiset_samples"),
  ("check_scene", "check_multiset_scene"),
  ("check_multiset_scene", "check_multiset_scene"),
  ("delete", "delete_gameobject"),
  ("delete_gameobject", "delete_gameobject"),
  ("rename", "rename_gameobject"),
  ("rename_gameobject", "rename_gameobject"),
  ("transform", "set_transform"),
  ("set_transform", "set_transform"),
  ("get_transform", "get_transform"),
  ("find", "find_gameobject"),
  ("find_gameobject", "find_gameobject"),
  ("duplicate", "duplicate_gameobject"),
  ("duplicate_gameobject", "duplicate_gameobject"),
  ("set_parent", "set_parent"),
  ("parent", "set_parent")]

/-- Alias resolution as performed by main:
COMMANDS.get(args.command, args.command). -/
def resolve (name : String) : String := dictGetStrD COMMANDS name name

example : resolve "rotate" = "start_rotation" := rfl

example : resolve "ping" = "ping" := rfl

example : resolve "unknown_xyz" = "unknown_xyz" := rfl

example : resolve "PING" = "PING" := rfl

/-- Most-recent-first ordering between status files. -/
def mge (a b : StatusFile) : Prop := b.mtime ≤ a.mtime

theorem perm_insertDesc (x : StatusFile) (l : List StatusFile) :
    List.Perm (insertDesc x l) (x :: l) := by
  induction l with
  | nil => exact List.Perm.refl _
  | cons y ys ih =>
    simp only [insertDesc]
    by_cases h : y.mtime ≤ x.mtime
    · rw [if_pos h]
    · rw [if_neg h]
      exact (ih.cons y).trans (List.Perm.swap x y ys)

theorem perm_sortDesc (l : List StatusFile) : List.Perm (sortDesc l) l := by
  induction l with
  | nil => exact List.Perm.refl _
  | cons x xs ih =>
    exact (perm_insertDesc x (sortDesc xs)).trans (ih.cons x)

theorem pairwise_insertDesc (x : StatusFile) (l : List StatusFile)
    (h : l.Pairwise mge) : (insertDesc x l).Pairwise mge := by
  induction l with
  | nil => simp [insertDesc, List.pairwise_cons]
  | cons y ys ih =>
    rw [List.pairwise_cons] at h
    simp only [insertDesc]
    by_cases hc : y.mtime ≤ x.mtime
    · rw [if_pos hc]
      rw [List.pairwise_cons]
      constructor
      · intro a ha
        rcases List.mem_cons.mp ha with h1 | h1
        · subst h1; exact hc
        · exact le_trans (h.1 a h1) hc
      · exact List.pairwise_cons.mpr h
    · rw [if_neg hc]
      rw [List.pairwise_cons]
      constructor
      · intro a ha
        have hmem : a ∈ x :: ys := (perm_insertDesc x ys).mem_iff.mp ha
        rcases List.mem_cons.mp hmem with h1 | h1
        · subst h1; exact le_of_not_le hc
        · exact h.1 a h1
      · exact ih h.2

theorem pairwise_sortDesc (l : List StatusFile) : (sortDesc l).Pairwise mge := by
  induction l with
  | nil => simp [sortDesc]
  | cons x xs ih => exact pairwise_insertDesc x (sortDesc xs) ih

theorem goodPort_shape {x : StatusFile} {p : PyVal} (h : goodPort x = some p) :
    ∃ kvs, x.content = some (.jobj kvs) ∧ dictGet kvs "port" = some p ∧
      p.truthy = true := by
  obtain ⟨mt, ct⟩ := x
  cases ct with
  | none => simp [goodPort] at h
  | some v =>
    cases v with
    | jobj kvs =>
      simp only [goodPort] at h
      cases hd : dictGet kvs "port" with
      | none => rw [hd] at h; simp at h
      | some q =>
        rw [hd] at h
        by_cases ht : q.truthy
        · simp only [ht, if_true] at h
          refine ⟨kvs, rfl, ?_, ?_⟩
          · rw [hd, h]
          · rw [← Option.some.inj h]; exact ht
        · simp [ht] at h
    | jnull => simp [goodPort] at h
    | jbool b => simp [goodPort] at h
    | jnum n => simp [goodPort] at h
    | jstr s => simp [goodPort] at h
    | jarr xs => simp [goodPort] at h
    | junser => simp [goodPort] at h

theorem scanPorts_cons_good (x : StatusFile) (rest : List StatusFile) (p : PyVal)
    (h : goodPort x = some p) : scanPorts (x :: rest) = .ok (.found p) := by
  obtain ⟨kvs, hc, hd, ht⟩ := goodPort_shape h
  obtain ⟨mt, ct⟩ := x
  simp only at hc
  subst hc
  simp only [scanPorts, hd]
  rw [if_pos ht]

theorem scanPorts_cons_skip (x : StatusFile) (rest : List StatusFile)
    (hobj : objOrBad x = true) (h : goodPort x = none) :
    scanPorts (x :: rest) = scanPorts rest := by
  obtain ⟨mt, ct⟩ := x
  cases ct with
  | none => simp only [scanPorts]
  | some v =>
    cases v with
    | jobj kvs =>
      simp only [goodPort] at h
      cases hd : dictGet kvs "port" with
      | none => simp only [scanPorts, hd]
      | some q =>
        rw [hd] at h
        by_cases ht : q.truthy
        · simp [ht] at h
        · simp only [scanPorts, hd]
          rw [if_neg ht]
    | jnull => simp [objOrBad] at hobj
    | jbool b => simp [objOrBad] at hobj
    | jnum n => simp [objOrBad] at hobj
    | jstr s => simp [objOrBad] at hobj
    | jarr xs => simp [objOrBad] at hobj
    | junser => simp [objOrBad] at hobj

theorem scanPorts_first_good :
    ∀ (l : List StatusFile) (f : StatusFile) (p : PyVal),
      l.Pairwise mge →
      l.Pairwise (fun a b => a.mtime ≠ b.mtime) →
      (∀ g ∈ l, objOrBad g = true) →
      f ∈ l → goodPort f = some p →
      (∀ g ∈ l, goodPort g ≠ none → g.mtime ≤ f.mtime) →
      scanPorts l = .ok (.found p) := by
  intro l
  induction l with
  | nil => intro f p _ _ _ hf; exact absurd hf (List.not_mem_nil f)
  | cons x rest ih =>
    intro f p hge hne hobj hf hgood hmax
    rw [List.pairwise_cons] at hge hne
    cases hq : goodPort x with
    | some q =>
      have hfx : f = x := by
        rcases List.mem_cons.mp hf with h1 | h1
        · exact h1
        · exfalso
          have h2 : f.mtime ≤ x.mtime := hge.1 f h1
          have h3 : x.mtime ≤ f.mtime :=
            hmax x (List.mem_cons_self x rest) (by rw [hq]; simp)
          have h4 : x.mtime ≠ f.mtime := hne.1 f h1
          omega
      subst hfx
      exact scanPorts_cons_good f rest p hgood
    | none =>
      have hfr : f ∈ rest := by
        rcases List.mem_cons.mp hf with h1 | h1
        · exfalso; rw [h1, hq] at hgood; exact Option.noConfusion hgood
        · exact h1
      rw [scanPorts_cons_skip x rest (hobj x (List.mem_cons_self x rest)) hq]
      exact ih f p hge.2 hne.2
        (fun g hg => hobj g (List.mem_cons_of_mem x hg)) hfr hgood
        (fun g hg hgn => hmax g (List.mem_cons_of_mem x hg) hgn)

theorem scanPorts_all_skip :
    ∀ l : List StatusFile, (∀ g ∈ l, objOrBad g = true ∧ goodPort g = none) →
      scanPorts l = .ok (.failed "Could not read port from Unity status files") := by
  intro l
  induction l with
  | nil => intro _; rfl
  | cons x rest ih =>
    intro h
    rw [scanPorts_cons_skip x rest (h x (List.mem_cons_self x rest)).1
      (h x (List.mem_cons_self x rest)).2]
    exact ih (fun g hg => h g (List.mem_cons_of_mem x hg))

/-- C2 (amended): discovery selects by recency and Python truthiness, not
integer-ness. For candidate files with pairwise distinct modification
times whose contents are each unreadable/unparseable or a JSON object,
find_unity_port returns the port value of the most recently modified file
whose object carries a truthy port entry (a truthy value of any JSON
type is accepted; falsy values, including the integer 0, and missing
ports are skipped, as are files with later modification times that do
not parse); if no candidate yields a truthy port the scan fails with an
error message, and with no candidate files at all it fails with the
no-files message. -/
theorem C2_discovery_selects_most_recent_truthy_port :
    (∀ (files : List StatusFile) (f : StatusFile) (p : PyVal),
        List.Pairwise (fun a b => a.mtime ≠ b.mtime) files →
        (∀ g ∈ files, objOrBad g = true) →
        f ∈ files → goodPort f = some p →
        (∀ g ∈ files, goodPort g ≠ none → g.mtime ≤ f.mtime) →
        find_unity_port files = .ok (.found p)) ∧
    (∀ files : List StatusFile, files ≠ [] →
        (∀ g ∈ files, objOrBad g = true ∧ goodPort g = none) →
        find_unity_port files =
          .ok (.failed "Could not read port from Unity status files")) ∧
    find_unity_port [] =
      .ok (.failed "No Unity port files found. Is Unity running with Bridge Lite?") := by
  refine ⟨?_, ?_, rfl⟩
  · intro files f p hne hobj hf hgood hmax
    have hfe : files ≠ [] := by
      intro h; subst h; exact absurd hf (List.not_mem_nil f)
    have hperm := perm_sortDesc files
    unfold find_unity_port
    rw [if_neg (by simpa [List.isEmpty_iff] using hfe)]
    refine scanPorts_first_good (sortDesc files) f p (pairwise_sortDesc files)
      ?_ ?_ ?_ hgood ?_
    · exact (hperm.pairwise_iff (fun h => Ne.symm h)).mpr hne
    · intro g hg; exact hobj g (hperm.mem_iff.mp hg)
    · exact hperm.mem_iff.mpr hf
    · intro g hg hgn; exact hmax g (hperm.mem_iff.mp hg) hgn
  · intro files hfe hall
    unfold find_unity_port
    rw [if_neg (by simpa [List.isEmpty_iff] using hfe)]
    exact scanPorts_all_skip (sortDesc files)
      (fun g hg => hall g ((perm_sortDesc files).mem_iff.mp hg))

/-- C2 counterexample: the single candidate file carries a string port,
not an integer one, so under the claim discovery should skip it and fail
after exhausting the list; the code instead accepts any truthy value and
returns the string port. -/
theorem C2_counterexample_string_port :
    hasIntPort ⟨7, some (.jobj [("port", .jstr "8080")])⟩ = false ∧
    find_unity_port [⟨7, some (.jobj [("port", .jstr "8080")])⟩] =
      .ok (.found (.jstr "8080")) := ⟨rfl, rfl⟩

/-- Witness for C2: a concrete pair of candidate files where the more
recently modified one is unparseable and is skipped in favor of the
older valid one. -/
theorem C2_witness :
    ((⟨5, some (.jobj [("port", .jnum 7777)])⟩ : StatusFile) ∈
      ([⟨9, none⟩, ⟨5, some (.jobj [("port", .jnum 7777)])⟩] : List StatusFile)) ∧
    find_unity_port [⟨9, none⟩, ⟨5, some (.jobj [("port", .jnum 7777)])⟩] =
      .ok (.found (.jnum 7777)) := by
  constructor
  · exact List.mem_cons_of_mem _ (List.mem_cons_self _ _)
  · refine C2_discovery_selects_most_recent_truthy_port.1
      [⟨9, none⟩, ⟨5, some (.jobj [("port", .jnum 7777)])⟩]
      ⟨5, some (.jobj [("port", .jnum 7777)])⟩ (.jnum 7777)
      ?_ ?_ (List.mem_cons_of_mem _ (List.mem_cons_self _ _)) rfl ?_
    · refine List.pairwise_cons.mpr ⟨?_, ?_⟩
      · intro g hg
        rcases List.mem_cons.mp hg with h | h
        · subst h; decide
        · exact absurd h (List.not_mem_nil g)
      · refine List.pairwise_cons.mpr ⟨?_, List.Pairwise.nil⟩
        intro g hg; exact absurd hg (List.not_mem_nil g)
    · intro g hg
      rcases List.mem_cons.mp hg with h | h
      · subst h; rfl
      · rcases List.mem_cons.mp h with h2 | h2
        · subst h2; rfl
        · exact absurd h2 (List.not_mem_nil g)
    · intro g hg hgn
      rcases List.mem_cons.mp hg with h | h
      · subst h; exact absurd rfl hgn
      · rcases List.mem_cons.mp h with h2 | h2
        · subst h2; exact le_refl 5
        · exact absurd h2 (List.not_mem_nil g)

/-- C3 counterexample: a chunk carrying bytes beyond the newline. Under
the claim, exactly the bytes before the first newline would be parsed,
but the read loop hands the entire accumulated buffer, including the
bytes after the newline, to the parser. -/
theorem C3_counterexample_bytes_after_newline :
    recvLoop [.chunk [123, 125, 10, 120]] [] = .parseInput [123, 125, 10, 120] ∧
    [123, 125, 10, 120] ≠ List.takeWhile (fun b => b ≠ 10) [123, 125, 10, 120] := by
  exact ⟨rfl, by decide⟩

/-- C3 (amended): the read loop accumulates chunks and stops at the first
decisive recv result: a timeout before a newline is seen yields the
timeout outcome, a zero byte read before a newline is seen yields the
connection-closed outcome, and once the accumulated data contains a
newline the ENTIRE accumulated buffer (bytes after the newline included)
is what send_command decodes, strips and passes to json.loads — not just
the bytes before the newline. -/
theorem C3_receive_first_decisive_whole_buffer :
    ∀ events : List RecvEvent, recvLoop events [] = receiveDescribed events := by
  intro events
  exact recvLoop_eq_describedFrom events []

/-- C7: alias resolution is an exact-match, case-sensitive, side-effect
free lookup in the fixed COMMANDS dict: every key resolves to its stored
canonical name, every string that is not a key passes through unchanged,
and in particular rotate resolves to start_rotation, ping to itself and
unknown_xyz passes through. -/
theorem C7_alias_resolution :
    (∀ p ∈ COMMANDS, resolve p.1 = p.2) ∧
    (∀ s : String, s ∉ COMMANDS.map Prod.fst → resolve s = s) ∧
    resolve "rotate" = "start_rotation" ∧
    resolve "ping" = "ping" ∧
    resolve "unknown_xyz" = "unknown_xyz" := by
  refine ⟨by decide, ?_, rfl, rfl, rfl⟩
  intro s hs
  unfold resolve dictGetStrD
  have hnone : COMMANDS.reverse.find? (fun p => p.1 == s) = none := by
    rw [List.find?_eq_none]
    intro x hx hbeq
    apply hs
    rw [List.mem_map]
    exact ⟨x, List.mem_reverse.mp hx, by simpa using hbeq⟩
  rw [hnone]
  rfl

/-- Witness for C7: one concrete key of the dict resolving to its
canonical name, and one concrete non-key passing through unchanged. -/
theorem C7_witness :
    (("scene", "get_scene_info") ∈ COMMANDS ∧ resolve "scene" = "get_scene_info") ∧
    ("nope" ∉ COMMANDS.map Prod.fst ∧ resolve "nope" = "nope") := by
  constructor
  · exact ⟨by decide, C7_alias_resolution.1 ("scene", "get_scene_info") (by decide)⟩
  · exact ⟨by decide, C7_alias_resolution.2.1 "nope" (by decide)⟩

/-- C10: alias resolution is idempotent: every canonical name stored as a
value in COMMANDS is itself a key mapping to itself, so resolving twice
equals resolving once, for every string. -/
theorem C10_resolve_idempotent : ∀ s : String, resolve (resolve s) = resolve s := by
  have hvals : ∀ p ∈ COMMANDS, resolve p.2 = p.2 := by decide
  intro s
  cases hf : COMMANDS.reverse.find? (fun p => p.1 == s) with
  | none =>
    have h1 : resolve s = s := by
      unfold resolve dictGetStrD; rw [hf]; rfl
    rw [h1]
    exact h1
  | some q =>
    have h1 : resolve s = q.2 := by
      unfold resolve dictGetStrD; rw [hf]; rfl
    have hq : q ∈ COMMANDS := List.mem_reverse.mp (List.mem_of_find?_eq_some hf)
    rw [h1]
    exact hvals q hq

/-- Concrete world builder for witnesses: fixed candidate files, one
connect answer for every port, one scripted behavior for every socket,
one json.loads answer for every buffer. -/
def mkWorld (files : List StatusFile) (ok : Bool) (beh : SockBehavior)
    (ld : Option PyVal) : World :=
  { files := files, connectOk := fun _ => ok, behaviors := fun _ => beh,
    loads := fun _ => ld, loadsErrMsg := fun _ => "Expecting value" }

/-- C6: when discovery finds no candidate status file, send_command
returns the no-files error response immediately, the pool state is
returned unchanged, and the socket event trace is empty: no connection
is created or acquired, nothing is written, nothing is closed. -/
theorem C6_no_status_file_no_socket_op :
    ∀ (w : World) (st : PoolState) (command : String)
      (params : Option (List (String × PyVal))) (t : Nat),
      w.files = [] →
      sendCommand w st command params t =
        (.returned (errorResp
          "No Unity port files found. Is Unity running with Bridge Lite?"), st, []) := by
  intro w st command params t hfiles
  unfold sendCommand
  rw [hfiles]
  rfl

/-- Witness for C6: a concrete world with an empty status directory. -/
theorem C6_witness :
    (mkWorld [] true ⟨.noData, .sendOk, []⟩ none).files = [] ∧
    sendCommand (mkWorld [] true ⟨.noData, .sendOk, []⟩ none) ⟨[], 0⟩ "ping" none 30 =
      (.returned (errorResp
        "No Unity port files found. Is Unity running with Bridge Lite?"), ⟨[], 0⟩, []) :=
  ⟨rfl, C6_no_status_file_no_socket_op _ ⟨[], 0⟩ "ping" none 30 rfl⟩

/-- C1 counterexample: with a perfectly valid status file present, a
params dict holding a non-JSON-serializable value makes json.dumps raise
TypeError before the try block starts, so the exception escapes
send_command instead of being converted into an error response; and a
status file whose content parses to a JSON array makes discovery raise
AttributeError, which also escapes because find_unity_port runs before
the try block. -/
theorem C1_counterexample_exceptions_escape :
    (sendCommand (mkWorld [⟨3, some (.jobj [("port", .jnum 7777)])⟩] true
        ⟨.noData, .sendOk, []⟩ none) ⟨[], 0⟩ "ping" (some [("x", .junser)]) 30).1 =
      .raised .typeError ∧
    (sendCommand (mkWorld [⟨3, some (.jarr [])⟩] true
        ⟨.noData, .sendOk, []⟩ none) ⟨[], 0⟩ "ping" none 30).1 =
      .raised .attributeError :=
  ⟨rfl, rfl⟩

/-- C1 (amended): send_command never lets an exception escape once the
two statements that precede its try block have gone through: whenever
discovery does not raise (no status file parsing to non-object JSON) and
the request payload is JSON-serializable, every failure mode — discovery
failure message, connect refusal, non-integer port, send failure,
timeout, peer close, malformed response — produces a returned structured
response, never a raised exception. A serialization failure of the
request payload or an AttributeError out of discovery, however, escapes
to the caller, since json.dumps and find_unity_port run before the try
block. -/
theorem C1_no_escape_after_preamble :
    ∀ (w : World) (st : PoolState) (command : String)
      (params : Option (List (String × PyVal))) (t : Nat) (e : PyExn),
      (∀ ex, find_unity_port w.files ≠ .error ex) →
      dumpsPayload command params ≠ none →
      (sendCommand w st command params t).1 ≠ .raised e := by
  intro w st command params t e hfind hdump
  simp only [sendCommand]
  cases hf : find_unity_port w.files with
  | error ex => exact absurd hf (hfind ex)
  | ok fr =>
    cases fr with
    | failed msg => simp
    | found pv =>
      cases hd : dumpsPayload command params with
      | none => exact absurd hd hdump
      | some payload =>
        cases hgs : (getSocket w st pv t).1 with
        | error se =>
          cases se with
          | refused => simp [hgs]
          | otherExc m => simp [hgs]
        | ok sid =>
          cases hsr : (w.behaviors sid).sendResult with
          | sendTimeout => simp [hgs, hsr]
          | sendExc m => simp [hgs, hsr]
          | sendOk =>
            cases hrl : recvLoop (w.behaviors sid).recvScript [] with
            | blocked => simp [hgs, hsr, hrl]
            | timedOut => simp [hgs, hsr, hrl]
            | connClosed => simp [hgs, hsr, hrl]
            | parseInput bs =>
              cases hld : w.loads bs with
              | none => simp [hgs, hsr, hrl, hld]
              | some r2 => simp [hgs, hsr, hrl, hld]

/-- Witness for C1 (amended): a world whose discovery succeeds and a
serializable payload; the call cannot raise. -/
theorem C1_witness :
    (∀ ex, find_unity_port (mkWorld [⟨3, some (.jobj [("port", .jnum 7777)])⟩] true
        ⟨.noData, .sendOk, [.chunk [110, 10]]⟩ (some .jnull)).files ≠ .error ex) ∧
    dumpsPayload "ping" none ≠ none ∧
    (sendCommand (mkWorld [⟨3, some (.jobj [("port", .jnum 7777)])⟩] true
        ⟨.noData, .sendOk, [.chunk [110, 10]]⟩ (some .jnull)) ⟨[], 0⟩ "ping" none 30).1 ≠
      .raised .typeError := by
  refine ⟨fun ex h => Except.noConfusion h, fun h => Option.noConfusion h, ?_⟩
  exact C1_no_escape_after_preamble _ ⟨[], 0⟩ "ping" none 30 .typeError
    (fun ex h => Except.noConfusion h) (fun h => Option.noConfusion h)

theorem scanPorts_found_truthy :
    ∀ (l : List StatusFile) (pv : PyVal),
      scanPorts l = .ok (.found pv) → pv.truthy = true := by
  intro l
  induction l with
  | nil => intro pv h; simp [scanPorts] at h
  | cons x rest ih =>
    intro pv h
    obtain ⟨mt, ct⟩ := x
    cases ct with
    | none => exact ih pv h
    | some v =>
      cases v with
      | jobj kvs =>
        simp only [scanPorts] at h
        cases hd : dictGet kvs "port" with
        | none => rw [hd] at h; exact ih pv h
        | some q =>
          by_cases ht : q.truthy
          · simp only [hd, ht, if_true] at h
            simp only [Except.ok.injEq, FindResult.found.injEq] at h
            rw [← h]
            exact ht
          · simp only [hd, ht, if_false, Bool.false_eq_true] at h
            exact ih pv h
      | jnull => simp [scanPorts] at h
      | jbool b => simp [scanPorts] at h
      | jnum n => simp [scanPorts] at h
      | jstr s => simp [scanPorts] at h
      | jarr xs => simp [scanPorts] at h
      | junser => simp [scanPorts] at h

theorem find_found_truthy (files : List StatusFile) (pv : PyVal)
    (h : find_unity_port files = .ok (.found pv)) : pv.truthy = true := by
  unfold find_unity_port at h
  by_cases he : files.isEmpty
  · rw [if_pos he] at h; simp at h
  · rw [if_neg he] at h
    exact scanPorts_found_truthy (sortDesc files) pv h

theorem poolLookup_insert (pool : List (String × Nat)) (k : String) (sid : Nat) :
    poolLookup (poolInsert pool k sid) k = some sid := by
  simp [poolLookup, poolInsert, List.find?]

theorem poolLookup_erase (pool : List (String × Nat)) (k : String) :
    poolLookup (poolErase pool k) k = none := by
  have hn : (poolErase pool k).find? (fun p => p.1 == k) = none := by
    rw [List.find?_eq_none]
    intro x hx
    have hp := (List.mem_filter.mp hx).2
    simpa using hp
  simp [poolLookup, hn]

theorem connectNew_ok_pool_key (w : World) (st0 : PoolState) (pv : PyVal) (t : Nat)
    (sid : Nat) (st1 : PoolState) (evs : List Ev)
    (h : connectNew w st0 pv t = (.ok sid, st1, evs)) :
    poolLookup st1.pool (keyOf pv) = some sid := by
  cases pv with
  | jnum n =>
    by_cases hc : w.connectOk n
    · simp only [connectNew, hc, if_true, Prod.mk.injEq, Except.ok.injEq] at h
      obtain ⟨h1, h2, h3⟩ := h
      subst h1
      rw [← h2]
      exact poolLookup_insert _ _ _
    · simp [connectNew, hc] at h
  | jnull => simp [connectNew] at h
  | jbool b => simp [connectNew] at h
  | jstr s => simp [connectNew] at h
  | jarr xs => simp [connectNew] at h
  | jobj kvs => simp [connectNew] at h
  | junser => simp [connectNew] at h

theorem getSocket_ok_pool_key (w : World) (st : PoolState) (pv : PyVal) (t : Nat)
    (sid : Nat) (st1 : PoolState) (evs1 : List Ev)
    (h : getSocket w st pv t = (.ok sid, st1, evs1)) :
    poolLookup st1.pool (keyOf pv) = some sid := by
  simp only [getSocket] at h
  cases hl : poolLookup st.pool (keyOf pv) with
  | some sid0 =>
    simp only [hl] at h
    cases hp : (w.behaviors sid0).peekResult with
    | someData =>
      simp only [hp, Prod.mk.injEq, Except.ok.injEq] at h
      obtain ⟨h1, h2, h3⟩ := h
      subst h1; subst h2
      exact hl
    | noData =>
      simp only [hp, Prod.mk.injEq, Except.ok.injEq] at h
      obtain ⟨h1, h2, h3⟩ := h
      subst h1; subst h2
      exact hl
    | closed =>
      simp only [hp, Prod.mk.injEq] at h
      obtain ⟨ha, hb, hc⟩ := h
      have h2 : connectNew w ⟨poolErase st.pool (keyOf pv), st.nextId⟩ pv t =
          (.ok sid, st1,
            (connectNew w ⟨poolErase st.pool (keyOf pv), st.nextId⟩ pv t).2.2) := by
        rw [← ha, ← hb]
      exact connectNew_ok_pool_key w _ pv t sid st1 _ h2
  | none =>
    simp only [hl] at h
    exact connectNew_ok_pool_key w st pv t sid st1 evs1 h

theorem close_connection_evicts (pv : PyVal) (st1 : PoolState) (sid : Nat)
    (htr : pv.truthy = true) (hlook : poolLookup st1.pool (keyOf pv) = some sid) :
    (close_connection pv st1).1.pool = poolErase st1.pool (keyOf pv) ∧
    (close_connection pv st1).2 = [Ev.evClose sid] := by
  unfold close_connection
  rw [if_pos htr, hlook]
  exact ⟨rfl, rfl⟩

/-- C4: every transport-level failure on a connection obtained from the
pool — a send timeout, a send exception, a receive timeout, the peer
closing mid-read, or a malformed response — makes send_command run
close_connection(port) before returning: the returned value is an error
response, the key is no longer in the pool in the returned state, and the
trace records the close of that socket. -/
theorem C4_transport_failure_evicts :
    ∀ (w : World) (st : PoolState) (command : String)
      (params : Option (List (String × PyVal))) (t : Nat) (pv : PyVal)
      (payload : String) (sid : Nat) (st1 : PoolState) (evs1 : List Ev),
      find_unity_port w.files = .ok (.found pv) →
      dumpsPayload command params = some payload →
      getSocket w st pv t = (.ok sid, st1, evs1) →
      ((w.behaviors sid).sendResult ≠ .sendOk ∨
        recvLoop (w.behaviors sid).recvScript [] = .timedOut ∨
        recvLoop (w.behaviors sid).recvScript [] = .connClosed ∨
        (∃ bs, recvLoop (w.behaviors sid).recvScript [] = .parseInput bs ∧
          w.loads bs = none)) →
      (∃ msg, (sendCommand w st command params t).1 = .returned (errorResp msg)) ∧
      poolLookup (sendCommand w st command params t).2.1.pool (keyOf pv) = none ∧
      Ev.evClose sid ∈ (sendCommand w st command params t).2.2 := by
  intro w st command params t pv payload sid st1 evs1 hf hd hgs hfail
  have htr : pv.truthy = true := find_found_truthy w.files pv hf
  have hlook : poolLookup st1.pool (keyOf pv) = some sid :=
    getSocket_ok_pool_key w st pv t sid st1 evs1 hgs
  have hcc := close_connection_evicts pv st1 sid htr hlook
  have hgs1 : (getSocket w st pv t).1 = .ok sid := by rw [hgs]
  have hgs2 : (getSocket w st pv t).2.1 = st1 := by rw [hgs]
  have hgs3 : (getSocket w st pv t).2.2 = evs1 := by rw [hgs]
  cases hsr : (w.behaviors sid).sendResult with
  | sendTimeout =>
    refine ⟨⟨"Connection timeout", ?_⟩, ?_, ?_⟩
    · simp [sendCommand, hf, hd, hgs1, hgs2, hsr]
    · simp [sendCommand, hf, hd, hgs1, hgs2, hsr, hcc.1, poolLookup_erase]
    · simp [sendCommand, hf, hd, hgs1, hgs2, hgs3, hsr, hcc.2]
  | sendExc m =>
    refine ⟨⟨m, ?_⟩, ?_, ?_⟩
    · simp [sendCommand, hf, hd, hgs1, hgs2, hsr]
    · simp [sendCommand, hf, hd, hgs1, hgs2, hsr, hcc.1, poolLookup_erase]
    · simp [sendCommand, hf, hd, hgs1, hgs2, hgs3, hsr, hcc.2]
  | sendOk =>
    rcases hfail with hne | hrl | hrl | ⟨bs, hrl, hld⟩
    · exact absurd hsr hne
    · refine ⟨⟨"Connection timeout", ?_⟩, ?_, ?_⟩
      · simp [sendCommand, hf, hd, hgs1, hgs2, hsr, hrl]
      · simp [sendCommand, hf, hd, hgs1, hgs2, hsr, hrl, hcc.1, poolLookup_erase]
      · simp [sendCommand, hf, hd, hgs1, hgs2, hgs3, hsr, hrl, hcc.2]
    · refine ⟨⟨"Connection closed by server", ?_⟩, ?_, ?_⟩
      · simp [sendCommand, hf, hd, hgs1, hgs2, hsr, hrl]
      · simp [sendCommand, hf, hd, hgs1, hgs2, hsr, hrl, hcc.1, poolLookup_erase]
      · simp [sendCommand, hf, hd, hgs1, hgs2, hgs3, hsr, hrl, hcc.2]
    · refine ⟨⟨w.loadsErrMsg bs, ?_⟩, ?_, ?_⟩
      · simp [sendCommand, hf, hd, hgs1, hgs2, hsr, hrl, hld]
      · simp [sendCommand, hf, hd, hgs1, hgs2, hsr, hrl, hld, hcc.1, poolLookup_erase]
      · simp [sendCommand, hf, hd, hgs1, hgs2, hgs3, hsr, hrl, hld, hcc.2]

/-- World used by the C4 witness: one valid status file, connects
accepted, the socket times out on its first recv. -/
def w4 : World :=
  mkWorld [⟨3, some (.jobj [("port", .jnum 7777)])⟩] true ⟨.noData, .sendOk, [.tmo]⟩ none

/-- Witness for C4: a concrete receive timeout on a freshly pooled
connection leads to an error response, an empty pool entry and a close
event. -/
theorem C4_witness :
    recvLoop (w4.behaviors 0).recvScript [] = .timedOut ∧
    (∃ msg, (sendCommand w4 ⟨[], 0⟩ "ping" none 30).1 = .returned (errorResp msg)) ∧
    poolLookup (sendCommand w4 ⟨[], 0⟩ "ping" none 30).2.1.pool
      (keyOf (.jnum 7777)) = none ∧
    Ev.evClose 0 ∈ (sendCommand w4 ⟨[], 0⟩ "ping" none 30).2.2 := by
  refine ⟨rfl, ?_⟩
  exact C4_transport_failure_evicts w4 ⟨[], 0⟩ "ping" none 30 (.jnum 7777)
    "\x7b\"type\": \"ping\", \"params\": \x7b\x7d\x7d\n" 0
    ⟨[("127.0.0.1:7777", 0)], 1⟩ [Ev.evSetTimeout 0 30, Ev.evConnect 7777 0]
    rfl rfl rfl (Or.inr (Or.inl rfl))

theorem getSocket_stale_recreates (w : World) (st : PoolState) (n : Int) (t : Nat)
    (sid : Nat) (hl : poolLookup st.pool (keyOf (.jnum n)) = some sid)
    (hp : (w.behaviors sid).peekResult = .closed)
    (hc : w.connectOk n = true) :
    getSocket w st (.jnum n) t =
      (.ok st.nextId,
       ⟨poolInsert (poolErase st.pool (keyOf (.jnum n))) (keyOf (.jnum n)) st.nextId,
        st.nextId + 1⟩,
       [.evSetBlocking sid false, .evPeek sid, .evClose sid,
        .evSetTimeout st.nextId t, .evConnect n st.nextId]) := by
  simp [getSocket, hl, hp, connectNew, hc]

theorem getSocket_wouldblock_reuses (w : World) (st : PoolState) (pv : PyVal) (t : Nat)
    (sid : Nat) (hl : poolLookup st.pool (keyOf pv) = some sid)
    (hp : (w.behaviors sid).peekResult = .noData) :
    getSocket w st pv t =
      (.ok sid, st, [.evSetBlocking sid false, .evPeek sid,
                     .evSetBlocking sid true, .evSetTimeout sid t]) := by
  simp [getSocket, hl, hp]

/-- C5: liveness validation before reusing a pooled connection. If the
non-blocking peek reads zero bytes, the stale socket is closed, its key
is deleted, and a fresh connection is created, inserted under the same
key and returned successfully; with a well-behaved new socket the whole
send_command call then returns the parsed response, surfacing no error.
If the peek would block, the very same pooled socket is returned, the
trace shows only the peek plus restoring blocking mode and setting the
requested timeout, the state is unchanged and no connection is
created. -/
theorem C5_peek_liveness_validation :
    (∀ (w : World) (st : PoolState) (n : Int) (t : Nat) (sid : Nat),
        poolLookup st.pool (keyOf (.jnum n)) = some sid →
        (w.behaviors sid).peekResult = .closed →
        w.connectOk n = true →
        getSocket w st (.jnum n) t =
          (.ok st.nextId,
           ⟨poolInsert (poolErase st.pool (keyOf (.jnum n))) (keyOf (.jnum n)) st.nextId,
            st.nextId + 1⟩,
           [.evSetBlocking sid false, .evPeek sid, .evClose sid,
            .evSetTimeout st.nextId t, .evConnect n st.nextId])) ∧
    (∀ (w : World) (st : PoolState) (command : String)
        (params : Option (List (String × PyVal))) (t : Nat) (n : Int) (sid : Nat)
        (bs : List Nat) (r : PyVal),
        find_unity_port w.files = .ok (.found (.jnum n)) →
        poolLookup st.pool (keyOf (.jnum n)) = some sid →
        (w.behaviors sid).peekResult = .closed →
        w.connectOk n = true →
        (w.behaviors st.nextId).sendResult = .sendOk →
        recvLoop (w.behaviors st.nextId).recvScript [] = .parseInput bs →
        w.loads bs = some r →
        dumpsPayload command params ≠ none →
        (sendCommand w st command params t).1 = .returned r) ∧
    (∀ (w : World) (st : PoolState) (pv : PyVal) (t : Nat) (sid : Nat),
        poolLookup st.pool (keyOf pv) = some sid →
        (w.behaviors sid).peekResult = .noData →
        getSocket w st pv t =
          (.ok sid, st, [.evSetBlocking sid false, .evPeek sid,
                         .evSetBlocking sid true, .evSetTimeout sid t])) := by
  refine ⟨getSocket_stale_recreates, ?_, getSocket_wouldblock_reuses⟩
  intro w st command params t n sid bs r hf hl hp hc hsend hrecv hload hdump
  have hgs := getSocket_stale_recreates w st n t sid hl hp hc
  cases hd : dumpsPayload command params with
  | none => exact absurd hd hdump
  | some payload =>
    have hgs1 : (getSocket w st (.jnum n) t).1 = .ok st.nextId := by rw [hgs]
    simp [sendCommand, hf, hd, hgs1, hsend, hrecv, hload]

/-- World used by the C5 witness: one valid status file, the pooled
socket reports peer-closed on peek, the replacement socket exchanges
cleanly. -/
def w5 : World :=
  mkWorld [⟨3, some (.jobj [("port", .jnum 7777)])⟩] true
    ⟨.closed, .sendOk, [.chunk [110, 10]]⟩ (some (.jobj [("status", .jstr "success")]))

/-- Witness for C5: the pooled socket for the discovered port is stale;
the call still succeeds with the parsed response of the replacement
connection. -/
theorem C5_witness :
    (w5.behaviors 0).peekResult = .closed ∧
    (sendCommand w5 ⟨[("127.0.0.1:7777", 0)], 1⟩ "ping" none 30).1 =
      .returned (.jobj [("status", .jstr "success")]) := by
  refine ⟨rfl, ?_⟩
  exact C5_peek_liveness_validation.2.1 w5 ⟨[("127.0.0.1:7777", 0)], 1⟩ "ping" none 30
    7777 0 [110, 10] (.jobj [("status", .jstr "success")])
    rfl rfl rfl rfl rfl rfl rfl (fun h => Option.noConfusion h)

/-- C9: a peek that finds pending bytes is not treated as a failure: the
same pooled socket is returned for reuse, the pool state is unchanged
(no eviction, no new connection), and the trace holds exactly the
non-consuming MSG_PEEK probe with the setblocking/settimeout calls
around it — no receive consumes, discards or flushes the pending
data. -/
theorem C9_pending_data_reused_not_consumed :
    ∀ (w : World) (st : PoolState) (pv : PyVal) (t : Nat) (sid : Nat),
      poolLookup st.pool (keyOf pv) = some sid →
      (w.behaviors sid).peekResult = .someData →
      getSocket w st pv t =
        (.ok sid, st, [.evSetBlocking sid false, .evPeek sid,
                       .evSetBlocking sid true, .evSetTimeout sid t]) := by
  intro w st pv t sid hl hp
  simp [getSocket, hl, hp]

/-- Witness for C9: a pooled socket with pending data is handed back
as-is. -/
theorem C9_witness :
    poolLookup (⟨[("127.0.0.1:4242", 3)], 7⟩ : PoolState).pool (keyOf (.jnum 4242)) =
      some 3 ∧
    getSocket (mkWorld [] true ⟨.someData, .sendOk, []⟩ none)
        ⟨[("127.0.0.1:4242", 3)], 7⟩ (.jnum 4242) 30 =
      (.ok 3, ⟨[("127.0.0.1:4242", 3)], 7⟩,
       [.evSetBlocking 3 false, .evPeek 3, .evSetBlocking 3 true, .evSetTimeout 3 30]) := by
  refine ⟨rfl, ?_⟩
  exact C9_pending_data_reused_not_consumed (mkWorld [] true ⟨.someData, .sendOk, []⟩ none)
    ⟨[("127.0.0.1:4242", 3)], 7⟩ (.jnum 4242) 30 3 rfl rfl

theorem data_append_mem {c : Char} {a b : String} :
    c ∈ (a ++ b).data ↔ c ∈ a.data ∨ c ∈ b.data := by
  rw [String.data_append]
  exact List.mem_append

theorem digitChar_not_nl (n : Nat) : digitChar n ≠ '\n' := by
  unfold digitChar
  by_cases h : n < 10
  · interval_cases n <;> decide
  · have hl : ("0123456789".data).length = 10 := rfl
    rw [List.getD_eq_default _ _ (by rw [hl]; omega)]
    decide

theorem hexDigit_not_nl (n : Nat) : hexDigit n ≠ '\n' := by
  unfold hexDigit
  by_cases h : n < 16
  · interval_cases n <;> decide
  · have hl : ("0123456789abcdef".data).length = 16 := rfl
    rw [List.getD_eq_default _ _ (by rw [hl]; omega)]
    decide

theorem natDigitsGo_not_nl :
    ∀ (fuel n : Nat) (acc : List Char),
      (∀ c ∈ acc, c ≠ '\n') → ∀ c ∈ natDigitsGo fuel n acc, c ≠ '\n' := by
  intro fuel
  induction fuel with
  | zero => intro n acc hacc c hc; exact hacc c hc
  | succ fuel ih =>
    intro n acc hacc c hc
    simp only [natDigitsGo] at hc
    by_cases h : n < 10
    · rw [if_pos h] at hc
      rcases List.mem_cons.mp hc with h1 | h1
      · subst h1; exact digitChar_not_nl _
      · exact hacc c h1
    · rw [if_neg h] at hc
      refine ih (n / 10) _ ?_ c hc
      intro d hd
      rcases List.mem_cons.mp hd with h1 | h1
      · subst h1; exact digitChar_not_nl _
      · exact hacc d h1

theorem pyIntRepr_not_nl (n : Int) : '\n' ∉ (pyIntRepr n).data := by
  unfold pyIntRepr natRepr
  by_cases h : n < 0
  · rw [if_pos h]
    intro hm
    rcases data_append_mem.mp hm with h1 | h1
    · simp at h1
    · exact natDigitsGo_not_nl _ _ []
        (fun c hc => absurd hc (List.not_mem_nil c)) '\n' h1 rfl
  · rw [if_neg h]
    intro hm
    exact natDigitsGo_not_nl _ _ []
      (fun c hc => absurd hc (List.not_mem_nil c)) '\n' hm rfl

theorem uEsc_not_nl (n : Nat) : '\n' ∉ (uEsc n).data := by
  intro hm
  have hd : '\n' = '\\' ∨ '\n' = 'u' ∨ '\n' = hexDigit (n / 4096 % 16) ∨
      '\n' = hexDigit (n / 256 % 16) ∨ '\n' = hexDigit (n / 16 % 16) ∨
      '\n' = hexDigit (n % 16) := by
    simpa [uEsc] using hm
  rcases hd with h | h | h | h | h | h
  · exact absurd h (by decide)
  · exact absurd h (by decide)
  · exact hexDigit_not_nl _ h.symm
  · exact hexDigit_not_nl _ h.symm
  · exact hexDigit_not_nl _ h.symm
  · exact hexDigit_not_nl _ h.symm

theorem escChar_not_nl (c : Char) : '\n' ∉ (escChar c).data := by
  unfold escChar
  by_cases h1 : c = '"'
  · rw [if_pos h1]; decide
  · rw [if_neg h1]
    by_cases h2 : c = '\\'
    · rw [if_pos h2]; decide
    · rw [if_neg h2]
      by_cases h3 : c = '\n'
      · rw [if_pos h3]; decide
      · rw [if_neg h3]
        by_cases h4 : c = '\t'
        · rw [if_pos h4]; decide
        · rw [if_neg h4]
          by_cases h5 : c = '\r'
          · rw [if_pos h5]; decide
          · rw [if_neg h5]
            by_cases h6 : c = Char.ofNat 8
            · rw [if_pos h6]; decide
            · rw [if_neg h6]
              by_cases h7 : c = Char.ofNat 12
              · rw [if_pos h7]; decide
              · rw [if_neg h7]
                by_cases h8 : (c.toNat < 32 || 126 < c.toNat) = true
                · rw [if_pos h8]
                  by_cases h9 : c.toNat < 65536
                  · rw [if_pos h9]
                    exact uEsc_not_nl _
                  · rw [if_neg h9]
                    intro hm
                    rcases data_append_mem.mp hm with hh | hh
                    · exact uEsc_not_nl _ hh
                    · exact uEsc_not_nl _ hh
                · rw [if_neg h8]
                  intro hm
                  have hc : '\n' = c := by
                    simpa [String.singleton] using hm
                  apply h8
                  rw [← hc]
                  decide

theorem concatStrs_not_nl :
    ∀ ss : List String, (∀ s ∈ ss, '\n' ∉ s.data) → '\n' ∉ (concatStrs ss).data := by
  intro ss
  induction ss with
  | nil => intro _ hm; simp [concatStrs] at hm
  | cons s rest ih =>
    intro hall hm
    rcases data_append_mem.mp hm with h | h
    · exact hall s (List.mem_cons_self s rest) h
    · exact ih (fun u hu => hall u (List.mem_cons_of_mem s hu)) h

theorem escString_not_nl (s : String) : '\n' ∉ (escString s).data := by
  unfold escString
  intro hm
  rcases data_append_mem.mp hm with h | h
  · rcases data_append_mem.mp h with h2 | h2
    · simp at h2
    · refine concatStrs_not_nl _ ?_ h2
      intro u hu
      rcases List.mem_map.mp hu with ⟨d, hd, he⟩
      rw [← he]
      exact escChar_not_nl d
  · simp at h

theorem joinSep_not_nl :
    ∀ ss : List String, (∀ s ∈ ss, '\n' ∉ s.data) →
      '\n' ∉ (joinSep ", " ss).data := by
  intro ss
  induction ss with
  | nil => intro _ hm; simp [joinSep] at hm
  | cons s rest ih =>
    intro hall
    cases rest with
    | nil =>
      simpa [joinSep] using hall s (List.mem_cons_self s [])
    | cons s2 rest2 =>
      simp only [joinSep]
      intro hm
      rcases data_append_mem.mp hm with h | h
      · rcases data_append_mem.mp h with h2 | h2
        · exact hall s (List.mem_cons_self s (s2 :: rest2)) h2
        · simp at h2
      · exact ih (fun u hu => hall u (List.mem_cons_of_mem s hu)) h

mutual

theorem dumpsVal_not_nl :
    ∀ (v : PyVal) (s : String), dumpsVal v = some s → '\n' ∉ s.data
  | .jnull, s, h => by
    rw [← Option.some.inj h]; decide
  | .jbool true, s, h => by
    rw [← Option.some.inj h]; decide
  | .jbool false, s, h => by
    rw [← Option.some.inj h]; decide
  | .jnum n, s, h => by
    rw [← Option.some.inj h]; exact pyIntRepr_not_nl n
  | .jstr u, s, h => by
    rw [← Option.some.inj h]; exact escString_not_nl u
  | .junser, s, h => by
    simp [dumpsVal] at h
  | .jarr xs, s, h => by
    simp only [dumpsVal] at h
    cases hi : dumpsItems xs with
    | none => rw [hi] at h; exact absurd h (by simp)
    | some ss =>
      rw [hi] at h
      rw [← Option.some.inj h]
      intro hm
      rcases data_append_mem.mp hm with h2 | h2
      · rcases data_append_mem.mp h2 with h3 | h3
        · simp at h3
        · exact joinSep_not_nl ss (dumpsItems_not_nl xs ss hi) h3
      · simp at h2
  | .jobj kvs, s, h => by
    simp only [dumpsVal] at h
    cases hi : dumpsMembers kvs with
    | none => rw [hi] at h; exact absurd h (by simp)
    | some ss =>
      rw [hi] at h
      rw [← Option.some.inj h]
      intro hm
      rcases data_append_mem.mp hm with h2 | h2
      · rcases data_append_mem.mp h2 with h3 | h3
        · simp at h3
        · exact joinSep_not_nl ss (dumpsMembers_not_nl kvs ss hi) h3
      · simp at h2

theorem dumpsItems_not_nl :
    ∀ (xs : List PyVal) (ss : List String), dumpsItems xs = some ss →
      ∀ s ∈ ss, '\n' ∉ s.data
  | [], ss, h => by
    rw [← Option.some.inj h]
    intro s hs; exact absurd hs (List.not_mem_nil s)
  | x :: xs, ss, h => by
    simp only [dumpsItems] at h
    cases hv : dumpsVal x with
    | none => rw [hv] at h; exact absurd h (by simp)
    | some s1 =>
      cases hr : dumpsItems xs with
      | none => rw [hv, hr] at h; exact absurd h (by simp)
      | some ss2 =>
        rw [hv, hr] at h
        rw [← Option.some.inj h]
        intro s hs
        rcases List.mem_cons.mp hs with h1 | h1
        · subst h1; exact dumpsVal_not_nl x s hv
        · exact dumpsItems_not_nl xs ss2 hr s h1

theorem dumpsMembers_not_nl :
    ∀ (kvs : List (String × PyVal)) (ss : List String), dumpsMembers kvs = some ss →
      ∀ s ∈ ss, '\n' ∉ s.data
  | [], ss, h => by
    rw [← Option.some.inj h]
    intro s hs; exact absurd hs (List.not_mem_nil s)
  | (k, v) :: kvs, ss, h => by
    simp only [dumpsMembers] at h
    cases hv : dumpsVal v with
    | none => rw [hv] at h; exact absurd h (by simp)
    | some s1 =>
      cases hr : dumpsMembers kvs with
      | none => rw [hv, hr] at h; exact absurd h (by simp)
      | some ss2 =>
        rw [hv, hr] at h
        rw [← Option.some.inj h]
        intro s hs
        rcases List.mem_cons.mp hs with h1 | h1
        · subst h1
          intro hm
          rcases data_append_mem.mp hm with h2 | h2
          · rcases data_append_mem.mp h2 with h3 | h3
            · exact escString_not_nl k h3
            · simp at h3
          · exact dumpsVal_not_nl v s1 hv h2
        · exact dumpsMembers_not_nl kvs ss2 hr s h1

end

/-- Discriminator for send events in a trace. -/
def isSendEv : Ev → Bool
  | .evSend _ _ => true
  | _ => false

/-- Number of send operations recorded in a trace. -/
def sendCount (evs : List Ev) : Nat := evs.countP isSendEv

theorem close_connection_no_send (pv : PyVal) (st1 : PoolState) :
    ((close_connection pv st1).2).countP isSendEv = 0 := by
  unfold close_connection
  by_cases ht : pv.truthy = true
  · rw [if_pos ht]
    cases hl : poolLookup st1.pool (keyOf pv) with
    | some sid => simp [hl, List.countP_cons, isSendEv]
    | none => simp [hl]
  · rw [if_neg ht]
    rw [List.countP_eq_zero]
    intro a ha
    rcases List.mem_map.mp ha with ⟨p, hp, he⟩
    rw [← he]
    simp [isSendEv]

theorem connectNew_no_send (w : World) (st0 : PoolState) (pv : PyVal) (t : Nat) :
    ((connectNew w st0 pv t).2.2).countP isSendEv = 0 := by
  cases pv with
  | jnum n =>
    by_cases hc : w.connectOk n
    · simp [connectNew, hc, List.countP_cons, isSendEv]
    · simp [connectNew, hc, List.countP_cons, isSendEv]
  | jnull => simp [connectNew]
  | jbool b => simp [connectNew]
  | jstr s => simp [connectNew]
  | jarr xs => simp [connectNew]
  | jobj kvs => simp [connectNew]
  | junser => simp [connectNew]

theorem getSocket_no_send (w : World) (st : PoolState) (pv : PyVal) (t : Nat) :
    ((getSocket w st pv t).2.2).countP isSendEv = 0 := by
  simp only [getSocket]
  cases hl : poolLookup st.pool (keyOf pv) with
  | some sid =>
    simp only [hl]
    cases hp : (w.behaviors sid).peekResult with
    | someData => simp [List.countP_cons, isSendEv]
    | noData => simp [List.countP_cons, isSendEv]
    | closed =>
      simp only [List.countP_append, List.countP_cons, isSendEv]
      simp [connectNew_no_send, isSendEv]
  | none =>
    simp only [hl]
    exact connectNew_no_send w st pv t

/-- C8: once a socket is available and the send goes through, the request
frame written by the single send operation is exactly the json.dumps
serialization of the object with the type and params entries followed by
exactly one newline byte (the serialization itself contains no raw
newline, so the trailing delimiter is the only one in the frame); the
whole send_command trace contains exactly one send event and it carries
that frame. -/
theorem C8_frame_and_single_send :
    ∀ (w : World) (st : PoolState) (command : String)
      (params : Option (List (String × PyVal))) (t : Nat) (pv : PyVal)
      (payload : String) (sid : Nat) (st1 : PoolState) (evs1 : List Ev),
      find_unity_port w.files = .ok (.found pv) →
      dumpsPayload command params = some payload →
      getSocket w st pv t = (.ok sid, st1, evs1) →
      (w.behaviors sid).sendResult = .sendOk →
      (∃ s, dumpsVal (requestObj command params) = some s ∧ payload = s ++ "\n" ∧
        payload.data.count '\n' = 1) ∧
      sendCount (sendCommand w st command params t).2.2 = 1 ∧
      Ev.evSend sid payload ∈ (sendCommand w st command params t).2.2 := by
  intro w st command params t pv payload sid st1 evs1 hf hd hgs hsr
  have hgs1 : (getSocket w st pv t).1 = .ok sid := by rw [hgs]
  have hgs2 : (getSocket w st pv t).2.1 = st1 := by rw [hgs]
  have hgs3 : (getSocket w st pv t).2.2 = evs1 := by rw [hgs]
  have hes : evs1.countP isSendEv = 0 := by
    rw [← hgs3]; exact getSocket_no_send w st pv t
  have hcl : ∀ q : PoolState, ((close_connection pv q).2).countP isSendEv = 0 :=
    fun q => close_connection_no_send pv q
  refine ⟨?_, ?_⟩
  · unfold dumpsPayload at hd
    cases hs : dumpsVal (requestObj command params) with
    | none => rw [hs] at hd; exact absurd hd (by simp)
    | some s =>
      rw [hs] at hd
      have hpay : payload = s ++ "\n" := (Option.some.inj hd).symm
      refine ⟨s, rfl, hpay, ?_⟩
      have hnn := dumpsVal_not_nl (requestObj command params) s hs
      rw [hpay, String.data_append, List.count_append]
      rw [List.count_eq_zero.mpr hnn]
      rfl
  · cases hrl : recvLoop (w.behaviors sid).recvScript [] with
    | blocked =>
      constructor
      · simp [sendCommand, hf, hd, hgs1, hgs2, hgs3, hsr, hrl, sendCount,
          List.countP_append, List.countP_cons, isSendEv, hes]
      · simp [sendCommand, hf, hd, hgs1, hgs2, hgs3, hsr, hrl]
    | timedOut =>
      constructor
      · simp [sendCommand, hf, hd, hgs1, hgs2, hgs3, hsr, hrl, sendCount,
          List.countP_append, List.countP_cons, isSendEv, hes, hcl]
      · simp [sendCommand, hf, hd, hgs1, hgs2, hgs3, hsr, hrl]
    | connClosed =>
      constructor
      · simp [sendCommand, hf, hd, hgs1, hgs2, hgs3, hsr, hrl, sendCount,
          List.countP_append, List.countP_cons, isSendEv, hes, hcl]
      · simp [sendCommand, hf, hd, hgs1, hgs2, hgs3, hsr, hrl]
    | parseInput bs =>
      cases hld : w.loads bs with
      | none =>
        constructor
        · simp [sendCommand, hf, hd, hgs1, hgs2, hgs3, hsr, hrl, hld, sendCount,
            List.countP_append, List.countP_cons, isSendEv, hes, hcl]
        · simp [sendCommand, hf, hd, hgs1, hgs2, hgs3, hsr, hrl, hld]
      | some r =>
        constructor
        · simp [sendCommand, hf, hd, hgs1, hgs2, hgs3, hsr, hrl, hld, sendCount,
            List.countP_append, List.countP_cons, isSendEv, hes, hcl]
        · simp [sendCommand, hf, hd, hgs1, hgs2, hgs3, hsr, hrl, hld]

/-- World used by the C8 witness: one valid status file and a clean
exchange. -/
def w8 : World :=
  mkWorld [⟨3, some (.jobj [("port", .jnum 7777)])⟩] true
    ⟨.noData, .sendOk, [.chunk [110, 10]]⟩ (some .jnull)

/-- Witness for C8: the concrete ping frame is sent once, verbatim, with
its single trailing newline. -/
theorem C8_witness :
    dumpsPayload "ping" none = some "\x7b\"type\": \"ping\", \"params\": \x7b\x7d\x7d\n" ∧
    sendCount (sendCommand w8 ⟨[], 0⟩ "ping" none 30).2.2 = 1 ∧
    Ev.evSend 0 "\x7b\"type\": \"ping\", \"params\": \x7b\x7d\x7d\n" ∈
      (sendCommand w8 ⟨[], 0⟩ "ping" none 30).2.2 := by
  refine ⟨rfl, ?_⟩
  exact (C8_frame_and_single_send w8 ⟨[], 0⟩ "ping" none 30 (.jnum 7777)
    "\x7b\"type\": \"ping\", \"params\": \x7b\x7d\x7d\n" 0
    ⟨[("127.0.0.1:7777", 0)], 1⟩ [Ev.evSetTimeout 0 30, Ev.evConnect 7777 0]
    rfl rfl rfl rfl).2
